import Mathlib

/-!
Verification of the DiabetesGuard ML service (src/backend/ml/app.py).

The service is a Flask app with two routes:
  * GET /ping: returns the pair (pong, 200).
  * POST /predict: extracts six numeric fields from the JSON body,
    applies defaulting, coercion and age sanitation, runs the model and
    returns a JSON body with prediction, probability and risk_level, or
    a 500 error.

The embedding models Python floats as a four-way value: a finite double
idealised as an exact rational (rounding of in-range values is not
modelled), the two infinities, and NaN. The Python float conversion is
modelled with its three outcomes: a value, a ValueError or TypeError
(caught by the inner except of the handler), or an OverflowError on an
out-of-double-range integer (not caught by the inner except, so it
escapes to the top-level except and produces a 500). String conversion
accepts signed decimal literals with optional fraction and exponent and
the case-insensitive spellings of inf, infinity and nan, with
surrounding whitespace stripped; out-of-range string magnitudes clamp
to the signed infinity, as the underlying C conversion does.
-/

set_option exponentiation.threshold 2000
set_option maxRecDepth 40000

namespace DiabetesGuard

/-- A Python float value: a finite IEEE double idealised as an exact
rational, an infinity, or NaN. -/
inductive PyFloat where
  | finite (q : ℚ)
  | inf
  | ninf
  | nan
deriving Repr, DecidableEq

/-- Negation of a Python float (NaN stays NaN). -/
def PyFloat.neg : PyFloat → PyFloat
  | PyFloat.finite q => PyFloat.finite (-q)
  | PyFloat.inf => PyFloat.ninf
  | PyFloat.ninf => PyFloat.inf
  | PyFloat.nan => PyFloat.nan

/-- The IEEE comparison a <= b: every comparison with NaN is false. -/
def PyFloat.le : PyFloat → PyFloat → Bool
  | PyFloat.nan, _ => false
  | _, PyFloat.nan => false
  | PyFloat.ninf, _ => true
  | _, PyFloat.ninf => false
  | _, PyFloat.inf => true
  | PyFloat.inf, _ => false
  | PyFloat.finite a, PyFloat.finite b => decide (a ≤ b)

/-- The IEEE comparison a < b: every comparison with NaN is false. -/
def PyFloat.lt : PyFloat → PyFloat → Bool
  | PyFloat.nan, _ => false
  | _, PyFloat.nan => false
  | PyFloat.ninf, PyFloat.ninf => false
  | PyFloat.ninf, _ => true
  | _, PyFloat.ninf => false
  | PyFloat.inf, _ => false
  | _, PyFloat.inf => true
  | PyFloat.finite a, PyFloat.finite b => decide (a < b)

/-- Numeric value of a list of decimal digit characters (most significant
first), as accumulated left to right. -/
def digitsVal (ds : List Char) : ℕ :=
  ds.foldl (fun a c => a * 10 + (c.toNat - 48)) 0

/-- The rational m times ten to the power e. -/
def qOfDigits (m : ℕ) (e : ℤ) : ℚ :=
  if 0 ≤ e then mkRat (m * 10 ^ e.toNat) 1 else mkRat m (10 ^ (-e).toNat)

/-- Smallest integer magnitude that no longer rounds to a finite IEEE
double: magnitudes of at least 2 ^ 1024 - 2 ^ 970 overflow. -/
def ovfBound : ℕ := 2 ^ 1024 - 2 ^ 970

/-- Rounding a parsed string magnitude into a double: out-of-range
values clamp to the signed infinity (the C string conversion returns
HUGE_VAL without raising), in-range values stay exact. -/
def clampFloat (q : ℚ) : PyFloat :=
  if q ≥ mkRat (ovfBound : ℤ) 1 then PyFloat.inf
  else if q ≤ -(mkRat (ovfBound : ℤ) 1) then PyFloat.ninf
  else PyFloat.finite q

/-- Parse the optional exponent suffix of a float literal: nothing means
exponent zero; the letter e, an optional sign and at least one digit
give that exponent. The input is already lowercased. -/
def parseExpPart : List Char → Option ℤ
  | [] => some 0
  | 'e' :: rest =>
      match rest with
      | '+' :: ds =>
          if !ds.isEmpty && ds.all Char.isDigit then
            some ((digitsVal ds : ℤ))
          else none
      | '-' :: ds =>
          if !ds.isEmpty && ds.all Char.isDigit then
            some (-(digitsVal ds : ℤ))
          else none
      | ds =>
          if !ds.isEmpty && ds.all Char.isDigit then
            some ((digitsVal ds : ℤ))
          else none
  | _ => none

/-- Parse an unsigned, lowercased Python float literal: the spellings
inf, infinity and nan, or digits with an optional fraction and an
optional exponent, with at least one digit in the mantissa. -/
def parseUnsigned (cs : List Char) : Option PyFloat :=
  if cs = ['i', 'n', 'f'] ∨ cs = ['i', 'n', 'f', 'i', 'n', 'i', 't', 'y'] then
    some PyFloat.inf
  else if cs = ['n', 'a', 'n'] then
    some PyFloat.nan
  else
    let ip := cs.takeWhile Char.isDigit
    let rest := cs.dropWhile Char.isDigit
    match rest with
    | '.' :: rest2 =>
        let fp := rest2.takeWhile Char.isDigit
        let rest3 := rest2.dropWhile Char.isDigit
        if ip = [] && fp = [] then none
        else
          match parseExpPart rest3 with
          | none => none
          | some e =>
              some (clampFloat (qOfDigits (digitsVal (ip ++ fp))
                (e - (fp.length : ℤ))))
    | _ =>
        if ip = [] then none
        else
          match parseExpPart rest with
          | none => none
          | some e => some (clampFloat (qOfDigits (digitsVal ip) e))

/-- Strip leading and trailing whitespace, as the Python float
conversion does on its string argument. -/
def stripEnds (cs : List Char) : List Char :=
  ((cs.dropWhile Char.isWhitespace).reverse.dropWhile Char.isWhitespace).reverse

/-- Python float conversion of a string: strip whitespace, lowercase,
take an optional sign, then an unsigned literal; `none` models the
ValueError raised on a malformed string. -/
def pyFloatOfString (s : String) : Option PyFloat :=
  match (stripEnds s.data).map Char.toLower with
  | '+' :: rest => parseUnsigned rest
  | '-' :: rest => (parseUnsigned rest).map PyFloat.neg
  | cs => parseUnsigned cs

/-- A number as decoded by the Python json module: an integer literal
becomes an arbitrary-precision int, a literal with a fraction or an
exponent becomes a double (huge literals decode directly to inf). -/
inductive PyNum where
  | int (n : ℤ)
  | float (v : PyFloat)
deriving Repr, DecidableEq

/-- A JSON value as delivered by `request.json` (Flask / Python json). -/
inductive Json where
  | null
  | bool (b : Bool)
  | num (v : PyNum)
  | str (s : String)
  | arr (xs : List Json)
  | obj (kvs : List (String × Json))

/-- Outcome of one Python float conversion: a value; a ValueError or
TypeError, which the inner except of the handler catches; or an
OverflowError, which that except does not catch, so it escapes to the
top-level except of the route. -/
inductive CoerceResult where
  | ok (v : PyFloat)
  | caught (msg : String)
  | uncaught (msg : String)
deriving Repr, DecidableEq

/-- Python float conversion of a JSON value: a within-range int becomes
its exact value, an out-of-range int raises OverflowError, a double
passes through, a boolean becomes 1 or 0, a string is parsed (failure
is a ValueError), and null, lists and dicts raise TypeError. -/
def pyFloat : Json → CoerceResult
  | Json.num (PyNum.int n) =>
      if n.natAbs ≥ ovfBound then
        CoerceResult.uncaught "int too large to convert to float"
      else CoerceResult.ok (PyFloat.finite (mkRat n 1))
  | Json.num (PyNum.float v) => CoerceResult.ok v
  | Json.bool b => CoerceResult.ok (PyFloat.finite (if b then 1 else 0))
  | Json.str s =>
      match pyFloatOfString s with
      | some v => CoerceResult.ok v
      | none => CoerceResult.caught ("could not convert string to float: " ++ s)
  | Json.null =>
      CoerceResult.caught "float() argument must be a string or a real number, not NoneType"
  | Json.arr _ =>
      CoerceResult.caught "float() argument must be a string or a real number, not list"
  | Json.obj _ =>
      CoerceResult.caught "float() argument must be a string or a real number, not dict"

/-- Lookup `data.get(key)` on the request-body dict (keys are unique in
a Python dict; first match). -/
def jsonGet (data : List (String × Json)) (key : String) : Option Json :=
  match data with
  | [] => none
  | (k, v) :: rest => if k = key then some v else jsonGet rest key

/-- One field-extraction expression of `predict`:
`float(data.get(key, default)) if data.get(key) is not None else default`.
Absent or JSON-null fields yield the default; otherwise the value is
coerced with the Python float conversion. -/
def extractField (data : List (String × Json)) (key : String) (default : ℚ) :
    CoerceResult :=
  match jsonGet data key with
  | none => CoerceResult.ok (PyFloat.finite default)
  | some Json.null => CoerceResult.ok (PyFloat.finite default)
  | some v => pyFloat v

/-- Outcome of the six coercions of `predict`: all six values; a caught
ValueError or TypeError (the first one raised), which triggers the
default-vector fallback; or an uncaught OverflowError, which aborts the
try block past the inner except. -/
inductive Coerced where
  | ok (vs : PyFloat × PyFloat × PyFloat × PyFloat × PyFloat × PyFloat)
  | caught (msg : String)
  | uncaught (msg : String)
deriving Repr, DecidableEq

/-- The six coercions of `predict`, performed in source order inside one
try block, aborting at the first failure. -/
def coerceAll (data : List (String × Json)) : Coerced :=
  match extractField data "Pregnancies" 0 with
  | CoerceResult.caught msg => Coerced.caught msg
  | CoerceResult.uncaught msg => Coerced.uncaught msg
  | CoerceResult.ok pregnancies =>
    match extractField data "Glucose" 0 with
    | CoerceResult.caught msg => Coerced.caught msg
    | CoerceResult.uncaught msg => Coerced.uncaught msg
    | CoerceResult.ok glucose =>
      match extractField data "BloodPressure" 0 with
      | CoerceResult.caught msg => Coerced.caught msg
      | CoerceResult.uncaught msg => Coerced.uncaught msg
      | CoerceResult.ok blood_pressure =>
        match extractField data "Insulin" 0 with
        | CoerceResult.caught msg => Coerced.caught msg
        | CoerceResult.uncaught msg => Coerced.uncaught msg
        | CoerceResult.ok insulin =>
          match extractField data "BMI" 0 with
          | CoerceResult.caught msg => Coerced.caught msg
          | CoerceResult.uncaught msg => Coerced.uncaught msg
          | CoerceResult.ok bmi =>
            match extractField data "Age" 30 with
            | CoerceResult.caught msg => Coerced.caught msg
            | CoerceResult.uncaught msg => Coerced.uncaught msg
            | CoerceResult.ok age =>
                Coerced.ok (pregnancies, glucose, blood_pressure, insulin, bmi, age)

/-- Range sanitation on the coerced age: if age is at most 0 or above
120 under the IEEE comparisons, it is overridden to 30. Both
comparisons are false for NaN, so a NaN age passes through unchanged;
the infinities are caught and overridden. -/
def sanitizeAge (age : PyFloat) : PyFloat :=
  if age.le (PyFloat.finite 0) || PyFloat.lt (PyFloat.finite 120) age then
    PyFloat.finite 30
  else age

/-- The default feature vector [0, 0, 0, 0, 0, 30] of the fallback. -/
def defaultFeatures : List PyFloat :=
  [PyFloat.finite 0, PyFloat.finite 0, PyFloat.finite 0,
   PyFloat.finite 0, PyFloat.finite 0, PyFloat.finite 30]

/-- The feature list handed to the model: the coerced values with Age
sanitized; the default vector when a coercion raised a caught
ValueError or TypeError; or, on an uncaught OverflowError, the error
itself, which propagates to the top-level except of the route. -/
def computeFeatures (data : List (String × Json)) :
    Except String (List PyFloat) :=
  match coerceAll data with
  | Coerced.ok (pregnancies, glucose, blood_pressure, insulin, bmi, age) =>
      Except.ok [pregnancies, glucose, blood_pressure, insulin, bmi,
        sanitizeAge age]
  | Coerced.caught _ => Except.ok defaultFeatures
  | Coerced.uncaught msg => Except.error msg

/-- Python int conversion of a float: truncation toward zero. -/
def pyInt (q : ℚ) : ℤ :=
  q.num.tdiv (q.den : ℤ)

/-- The risk-tier chain of `predict`: Low Risk, overridden to High Risk
when the probability is at least 0.7, else to Medium Risk when it is at
least 0.4. -/
def risk_level_of (p : ℚ) : String :=
  if p ≥ mkRat 7 10 then "High Risk"
  else if p ≥ mkRat 4 10 then "Medium Risk"
  else "Low Risk"

/-- The loaded model: the scalar results of `model.predict` and of
`model.predict_proba` (probability of class 1) on the single-row
feature vector; an `Except.error` models the call raising, carrying the
message of the exception. -/
structure ModelHandle where
  predict : List PyFloat → Except String ℚ
  predict_proba : List PyFloat → Except String ℚ

/-- The JSON body of a successful prediction. -/
structure PredictResponse where
  prediction : ℤ
  probability : ℚ
  risk_level : String
deriving Repr, DecidableEq

/-- An HTTP reply of the /predict route: a JSON success body with a
status code, or an error JSON body (message under the error key) with a
status code. -/
inductive Response where
  | ok (status : ℕ) (body : PredictResponse)
  | err (status : ℕ) (message : String)
deriving Repr, DecidableEq

/-- The /predict handler. `model = none` models the startup load failure
path (model set to None). The top-level try/except turns the
"Model is not loaded" exception, an uncaught OverflowError from feature
extraction, and any exception raised by the model calls into a 500 JSON
error; `jsonify(result)` responds with 200. -/
def predictHandler (model : Option ModelHandle)
    (data : List (String × Json)) : Response :=
  match model with
  | none => Response.err 500 "Model is not loaded"
  | some m =>
      match computeFeatures data with
      | Except.error e => Response.err 500 e
      | Except.ok features =>
          match m.predict features with
          | Except.error e => Response.err 500 e
          | Except.ok prediction =>
              match m.predict_proba features with
              | Except.error e => Response.err 500 e
              | Except.ok probability =>
                  Response.ok 200
                    ⟨pyInt prediction, probability, risk_level_of probability⟩

/-- The /ping handler: it returns the pair (pong, 200) and touches
nothing else, in particular not the model. -/
def ping : String × ℕ := ("pong", 200)

/-- The 0.7 threshold of the source, written as a fraction. -/
theorem mkRat_seven_tenths : mkRat 7 10 = 7/10 := by
  rw [Rat.mkRat_eq_div]; norm_num

/-- The 0.4 threshold of the source, written as a fraction. -/
theorem mkRat_four_tenths : mkRat 4 10 = 4/10 := by
  rw [Rat.mkRat_eq_div]; norm_num

/-- The sanitized age is either NaN (which passes both IEEE checks
unchanged) or a finite value in the half-open interval (0, 120]. -/
theorem sanitizeAge_classify (a : PyFloat) :
    sanitizeAge a = PyFloat.nan ∨
    ∃ q : ℚ, sanitizeAge a = PyFloat.finite q ∧ 0 < q ∧ q ≤ 120 := by
  cases a with
  | finite q =>
      right
      unfold sanitizeAge
      rcases le_or_lt q 0 with h1 | h1
      · exact ⟨30, by simp [PyFloat.le, PyFloat.lt, h1], by norm_num, by norm_num⟩
      · rcases le_or_lt q 120 with h2 | h2
        · refine ⟨q, ?_, h1, h2⟩
          simp [PyFloat.le, PyFloat.lt, not_le.mpr h1, not_lt.mpr h2]
        · exact ⟨30, by simp [PyFloat.le, PyFloat.lt, h2], by norm_num, by norm_num⟩
  | inf => exact Or.inr ⟨30, by decide, by norm_num, by norm_num⟩
  | ninf => exact Or.inr ⟨30, by decide, by norm_num, by norm_num⟩
  | nan => exact Or.inl (by decide)

/-- C1: on every successful response, risk_level is exactly the tier
function of the probability field, and the tier function satisfies the
three threshold characterisations, which are mutually exclusive and
exhaustive over all rationals, hence over [0, 1]. -/
theorem c1_risk_level_pure_and_tiers (m : ModelHandle)
    (data : List (String × Json)) (r : PredictResponse)
    (h : predictHandler (some m) data = Response.ok 200 r) :
    r.risk_level = risk_level_of r.probability ∧
    ∀ p : ℚ,
      (risk_level_of p = "High Risk" ↔ 7/10 ≤ p) ∧
      (risk_level_of p = "Medium Risk" ↔ 4/10 ≤ p ∧ p < 7/10) ∧
      (risk_level_of p = "Low Risk" ↔ p < 4/10) := by
  constructor
  · rcases hf : computeFeatures data with e | fs
    · simp [predictHandler, hf] at h
    · rcases hp : m.predict fs with e | pred
      · simp [predictHandler, hf, hp] at h
      · rcases hq : m.predict_proba fs with e | prob
        · simp [predictHandler, hf, hp, hq] at h
        · simp only [predictHandler, hf, hp, hq, Response.ok.injEq] at h
          exact h.2 ▸ rfl
  · intro p
    simp only [risk_level_of, mkRat_seven_tenths, mkRat_four_tenths, ge_iff_le]
    split_ifs with h1 h2
    · exact ⟨⟨fun _ => h1, fun _ => rfl⟩,
        ⟨fun hc => absurd hc (by decide), fun hc => absurd hc.2 (not_lt.mpr h1)⟩,
        ⟨fun hc => absurd hc (by decide),
         fun hc => absurd hc (not_lt.mpr (le_trans (by norm_num) h1))⟩⟩
    · exact ⟨⟨fun hc => absurd hc (by decide), fun hc => absurd hc h1⟩,
        ⟨fun _ => ⟨h2, not_le.mp h1⟩, fun _ => rfl⟩,
        ⟨fun hc => absurd hc (by decide), fun hc => absurd hc (not_lt.mpr h2)⟩⟩
    · exact ⟨⟨fun hc => absurd hc (by decide),
         fun hc => absurd (le_trans (by norm_num) hc) h2⟩,
        ⟨fun hc => absurd hc (by decide), fun hc => absurd hc.1 h2⟩,
        ⟨fun _ => not_le.mp h2, fun _ => rfl⟩⟩

theorem c1_witness :
    (⟨1, mkRat 3 4, "High Risk"⟩ : PredictResponse).risk_level
      = risk_level_of (⟨1, mkRat 3 4, "High Risk"⟩ : PredictResponse).probability :=
  (c1_risk_level_pure_and_tiers
    ⟨fun _ => Except.ok 1, fun _ => Except.ok (mkRat 3 4)⟩ []
    ⟨1, mkRat 3 4, "High Risk"⟩ (by decide)).1

/-- C2 counterexample: the body binding Glucose to the JSON integer
10 ^ 400 has a field that cannot be coerced to a float, yet the feature
set is not replaced by the default vector and the request does not
proceed to inference: the conversion raises OverflowError, which the
inner except does not catch, and the route answers 500. -/
theorem c2_counterexample :
    computeFeatures [("Glucose", Json.num (PyNum.int ((10 ^ 400 : ℕ) : ℤ)))]
      = Except.error "int too large to convert to float" ∧
    predictHandler (some ⟨fun _ => Except.ok 1, fun _ => Except.ok (mkRat 3 4)⟩)
        [("Glucose", Json.num (PyNum.int ((10 ^ 400 : ℕ) : ℤ)))]
      = Response.err 500 "int too large to convert to float" :=
  ⟨rfl, by decide⟩

/-- C2 amended: when the six-field coercion raises a ValueError or
TypeError (the failure kind the inner except handles, e.g. a malformed
string), the whole feature vector is the default [0,0,0,0,0,30] —
including the fields that coerced successfully — and the request still
reaches inference: with any model that answers on the default vector,
the handler returns a 200 response built from those answers. An
out-of-double-range JSON integer instead raises OverflowError and the
request fails with a 500. -/
theorem c2_caught_failure_resets_all (data : List (String × Json))
    (msg : String) (h : coerceAll data = Coerced.caught msg) :
    computeFeatures data = Except.ok defaultFeatures ∧
    ∀ (m : ModelHandle) (pred prob : ℚ),
      m.predict defaultFeatures = Except.ok pred →
      m.predict_proba defaultFeatures = Except.ok prob →
      predictHandler (some m) data
        = Response.ok 200 ⟨pyInt pred, prob, risk_level_of prob⟩ := by
  have hfeat : computeFeatures data = Except.ok defaultFeatures := by
    simp [computeFeatures, h]
  refine ⟨hfeat, ?_⟩
  intro m pred prob hm hq
  simp [predictHandler, hfeat, hm, hq]

theorem c2_witness :
    predictHandler
        (some ⟨fun _ => Except.ok 1, fun _ => Except.ok (mkRat 3 4)⟩)
        [("Glucose", Json.str "not-a-number")]
      = Response.ok 200 ⟨pyInt 1, mkRat 3 4, risk_level_of (mkRat 3 4)⟩ :=
  (c2_caught_failure_resets_all [("Glucose", Json.str "not-a-number")]
    "could not convert string to float: not-a-number" (by decide)).2
    ⟨fun _ => Except.ok 1, fun _ => Except.ok (mkRat 3 4)⟩ 1 (mkRat 3 4) rfl rfl

/-- C3: with no model loaded, every /predict call answers 500 with the
exact message "Model is not loaded", while /ping answers 200 pong
regardless of model state. -/
theorem c3_model_unavailable (data : List (String × Json)) :
    predictHandler none data = Response.err 500 "Model is not loaded" ∧
    ping = ("pong", 200) :=
  ⟨rfl, rfl⟩

/-- C4: after successful coercion, a finite age at most 0 or above 120
is overridden to 30; the boundary values 0 and 121 are sanitized to 30
while 1 and 120 pass through; and the other five fields reach the
feature vector unchanged, only Age being range-checked. -/
theorem c4_age_sanitation :
    (∀ q : ℚ, q ≤ 0 ∨ 120 < q →
        sanitizeAge (PyFloat.finite q) = PyFloat.finite 30) ∧
    sanitizeAge (PyFloat.finite 0) = PyFloat.finite 30 ∧
    sanitizeAge (PyFloat.finite 121) = PyFloat.finite 30 ∧
    sanitizeAge (PyFloat.finite 1) = PyFloat.finite 1 ∧
    sanitizeAge (PyFloat.finite 120) = PyFloat.finite 120 ∧
    ∀ (data : List (String × Json)) (p g bp i b a : PyFloat),
      coerceAll data = Coerced.ok (p, g, bp, i, b, a) →
      computeFeatures data = Except.ok [p, g, bp, i, b, sanitizeAge a] := by
  refine ⟨?_, by decide, by decide, by decide, by decide, ?_⟩
  · intro q hq
    unfold sanitizeAge
    rcases hq with h | h
    · simp [PyFloat.le, PyFloat.lt, h]
    · simp [PyFloat.le, PyFloat.lt, h]
  · intro data p g bp i b a hc
    simp [computeFeatures, hc]

theorem c4_witness :
    sanitizeAge (PyFloat.finite 121) = PyFloat.finite 30 ∧
    computeFeatures [("Age", Json.num (PyNum.float (PyFloat.finite 45)))]
      = Except.ok [PyFloat.finite 0, PyFloat.finite 0, PyFloat.finite 0,
          PyFloat.finite 0, PyFloat.finite 0, sanitizeAge (PyFloat.finite 45)] :=
  ⟨c4_age_sanitation.2.2.1,
   c4_age_sanitation.2.2.2.2.2 [("Age", Json.num (PyNum.float (PyFloat.finite 45)))]
     (PyFloat.finite 0) (PyFloat.finite 0) (PyFloat.finite 0) (PyFloat.finite 0)
     (PyFloat.finite 0) (PyFloat.finite 45) (by decide)⟩

/-- C5: a field that is absent from the body, or bound to JSON null,
extracts to its per-field default (0 for five fields, 30 for Age), and
the empty body produces the vector [0,0,0,0,0,30] without error. -/
theorem c5_missing_or_null_defaults :
    (∀ (data : List (String × Json)) (key : String) (d : ℚ),
        jsonGet data key = none →
        extractField data key d = CoerceResult.ok (PyFloat.finite d)) ∧
    (∀ (data : List (String × Json)) (key : String) (d : ℚ),
        jsonGet data key = some Json.null →
        extractField data key d = CoerceResult.ok (PyFloat.finite d)) ∧
    extractField [] "Pregnancies" 0 = CoerceResult.ok (PyFloat.finite 0) ∧
    extractField [] "Age" 30 = CoerceResult.ok (PyFloat.finite 30) ∧
    computeFeatures [] = Except.ok defaultFeatures := by
  refine ⟨?_, ?_, by decide, by decide, rfl⟩
  · intro data key d h
    simp [extractField, h]
  · intro data key d h
    simp [extractField, h]

theorem c5_witness :
    extractField [] "Age" 30 = CoerceResult.ok (PyFloat.finite 30) ∧
    extractField [("Glucose", Json.null)] "Glucose" 0
      = CoerceResult.ok (PyFloat.finite 0) :=
  ⟨c5_missing_or_null_defaults.1 [] "Age" 30 rfl,
   c5_missing_or_null_defaults.2.1 [("Glucose", Json.null)] "Glucose" 0 rfl⟩

/-- C6: every request is answered with either a 200 success body or a
500 error body, and every uncaught exception carries its message into
the 500 response: an OverflowError escaping feature extraction, or an
exception raised by either model call. -/
theorem c6_all_exceptions_become_500 (model : Option ModelHandle)
    (data : List (String × Json)) :
    ((∃ r, predictHandler model data = Response.ok 200 r) ∨
     (∃ e, predictHandler model data = Response.err 500 e)) ∧
    (∀ m e, model = some m →
        computeFeatures data = Except.error e →
        predictHandler model data = Response.err 500 e) ∧
    (∀ m fs e, model = some m →
        computeFeatures data = Except.ok fs →
        m.predict fs = Except.error e →
        predictHandler model data = Response.err 500 e) ∧
    (∀ m fs pred e, model = some m →
        computeFeatures data = Except.ok fs →
        m.predict fs = Except.ok pred →
        m.predict_proba fs = Except.error e →
        predictHandler model data = Response.err 500 e) := by
  refine ⟨?_, ?_, ?_, ?_⟩
  · rcases model with _ | m
    · exact Or.inr ⟨"Model is not loaded", rfl⟩
    · rcases hf : computeFeatures data with e | fs
      · exact Or.inr ⟨e, by simp [predictHandler, hf]⟩
      · rcases hp : m.predict fs with e | pred
        · exact Or.inr ⟨e, by simp [predictHandler, hf, hp]⟩
        · rcases hq : m.predict_proba fs with e | prob
          · exact Or.inr ⟨e, by simp [predictHandler, hf, hp, hq]⟩
          · exact Or.inl ⟨⟨pyInt pred, prob, risk_level_of prob⟩,
              by simp [predictHandler, hf, hp, hq]⟩
  · intro m e hm hf
    subst hm
    simp [predictHandler, hf]
  · intro m fs e hm hf hp
    subst hm
    simp [predictHandler, hf, hp]
  · intro m fs pred e hm hf hp hq
    subst hm
    simp [predictHandler, hf, hp, hq]

theorem c6_witness :
    predictHandler
        (some ⟨fun _ => Except.error "boom", fun _ => Except.ok 0⟩) []
      = Response.err 500 "boom" :=
  (c6_all_exceptions_become_500
    (some ⟨fun _ => Except.error "boom", fun _ => Except.ok 0⟩) []).2.2.1
    ⟨fun _ => Except.error "boom", fun _ => Except.ok 0⟩ defaultFeatures "boom"
    rfl rfl rfl

/-- C7: with a loaded model whose predict only returns class labels 0 or
1 and whose predict_proba only returns probabilities in [0, 1], every
successful response has prediction equal to 0 or 1 and probability in
[0, 1]; this holds for every body, in particular for bodies carrying all
six numeric fields. -/
theorem c7_output_ranges (m : ModelHandle) (data : List (String × Json))
    (r : PredictResponse)
    (hok : predictHandler (some m) data = Response.ok 200 r)
    (hpred : ∀ v q, m.predict v = Except.ok q → q = 0 ∨ q = 1)
    (hprob : ∀ v q, m.predict_proba v = Except.ok q → 0 ≤ q ∧ q ≤ 1) :
    (r.prediction = 0 ∨ r.prediction = 1) ∧
    0 ≤ r.probability ∧ r.probability ≤ 1 := by
  rcases hf : computeFeatures data with e | fs
  · simp [predictHandler, hf] at hok
  · rcases hp : m.predict fs with e | pred
    · simp [predictHandler, hf, hp] at hok
    · rcases hq : m.predict_proba fs with e | prob
      · simp [predictHandler, hf, hp, hq] at hok
      · simp only [predictHandler, hf, hp, hq, Response.ok.injEq] at hok
        rw [← hok.2]
        refine ⟨?_, hprob _ _ hq⟩
        rcases hpred _ _ hp with h0 | h0 <;> subst h0
        · exact Or.inl (show pyInt 0 = 0 by decide)
        · exact Or.inr (show pyInt 1 = 1 by decide)

theorem c7_witness :
    ((⟨1, mkRat 3 4, "High Risk"⟩ : PredictResponse).prediction = 0 ∨
     (⟨1, mkRat 3 4, "High Risk"⟩ : PredictResponse).prediction = 1) ∧
    0 ≤ (⟨1, mkRat 3 4, "High Risk"⟩ : PredictResponse).probability ∧
    (⟨1, mkRat 3 4, "High Risk"⟩ : PredictResponse).probability ≤ 1 :=
  c7_output_ranges
    ⟨fun _ => Except.ok 1, fun _ => Except.ok (mkRat 3 4)⟩ []
    ⟨1, mkRat 3 4, "High Risk"⟩ (by decide)
    (fun _ q hq => Or.inr (by cases hq; rfl))
    (fun _ q hq => by cases hq; exact ⟨by decide, by decide⟩)

/-- C8: with a fixed model handle, the handler is a deterministic pure
function of the request body: two requests with equal bodies receive
equal responses. -/
theorem c8_deterministic (model : Option ModelHandle)
    (d1 d2 : List (String × Json)) (h : d1 = d2) :
    predictHandler model d1 = predictHandler model d2 := by
  rw [h]

theorem c8_witness :
    predictHandler none [] = predictHandler none [] :=
  c8_deterministic none [] [] rfl

/-- C9 counterexample: the body binding Age to the string nan reaches
the inference step (the model is called and a 200 response is produced)
with a feature vector whose Age element is NaN: both IEEE sanitation
comparisons are false for NaN, so it passes through unchanged, and NaN
does not lie in (0, 120] — it is not even above 0. -/
theorem c9_counterexample :
    computeFeatures [("Age", Json.str "nan")]
      = Except.ok [PyFloat.finite 0, PyFloat.finite 0, PyFloat.finite 0,
          PyFloat.finite 0, PyFloat.finite 0, PyFloat.nan] ∧
    PyFloat.lt (PyFloat.finite 0) PyFloat.nan = false ∧
    PyFloat.le PyFloat.nan (PyFloat.finite 120) = false ∧
    predictHandler (some ⟨fun _ => Except.ok 1, fun _ => Except.ok (mkRat 3 4)⟩)
        [("Age", Json.str "nan")]
      = Response.ok 200 ⟨1, mkRat 3 4, "High Risk"⟩ :=
  ⟨rfl, rfl, rfl, by decide⟩

/-- C9 amended: every feature vector that reaches inference has exactly
six elements, its entries come from the six named field coercions in
the fixed order (or are the defaults after a caught coercion failure),
and the Age entry is either a finite value in (0, 120] or NaN — a NaN
age passes the sanitation check unchanged, while infinite ages are
sanitized to 30. -/
theorem c9_feature_vector_invariant (data : List (String × Json))
    (fs : List PyFloat) (h : computeFeatures data = Except.ok fs) :
    ∃ p g bp i b a : PyFloat,
      fs = [p, g, bp, i, b, a] ∧ fs.length = 6 ∧
      (a = PyFloat.nan ∨ ∃ q : ℚ, a = PyFloat.finite q ∧ 0 < q ∧ q ≤ 120) ∧
      ((∃ p0 g0 bp0 i0 b0 a0,
          coerceAll data = Coerced.ok (p0, g0, bp0, i0, b0, a0) ∧
          p = p0 ∧ g = g0 ∧ bp = bp0 ∧ i = i0 ∧ b = b0 ∧
          a = sanitizeAge a0) ∨
        ∃ msg, coerceAll data = Coerced.caught msg ∧ fs = defaultFeatures) := by
  rcases hc : coerceAll data with ⟨p0, g0, bp0, i0, b0, a0⟩ | msg | msg
  · simp only [computeFeatures, hc, Except.ok.injEq] at h
    subst h
    exact ⟨p0, g0, bp0, i0, b0, sanitizeAge a0, rfl, rfl,
      sanitizeAge_classify a0,
      Or.inl ⟨p0, g0, bp0, i0, b0, a0, rfl, rfl, rfl, rfl, rfl, rfl, rfl⟩⟩
  · simp only [computeFeatures, hc, Except.ok.injEq] at h
    subst h
    exact ⟨PyFloat.finite 0, PyFloat.finite 0, PyFloat.finite 0,
      PyFloat.finite 0, PyFloat.finite 0, PyFloat.finite 30, rfl, rfl,
      Or.inr ⟨30, rfl, by norm_num, by norm_num⟩,
      Or.inr ⟨msg, rfl, rfl⟩⟩
  · simp [computeFeatures, hc] at h

theorem c9_witness :
    ∃ p g bp i b a : PyFloat,
      defaultFeatures = [p, g, bp, i, b, a] ∧
      defaultFeatures.length = 6 ∧
      (a = PyFloat.nan ∨ ∃ q : ℚ, a = PyFloat.finite q ∧ 0 < q ∧ q ≤ 120) ∧
      ((∃ p0 g0 bp0 i0 b0 a0,
          coerceAll [] = Coerced.ok (p0, g0, bp0, i0, b0, a0) ∧
          p = p0 ∧ g = g0 ∧ bp = bp0 ∧ i = i0 ∧ b = b0 ∧
          a = sanitizeAge a0) ∨
        ∃ msg, coerceAll [] = Coerced.caught msg ∧
          defaultFeatures = defaultFeatures) :=
  c9_feature_vector_invariant [] defaultFeatures rfl

/-- C10: coercion is broader than JSON numbers: a numeric string coerces
to its value, a boolean coerces to 1 or 0, and such values do not
trigger the default-vector fallback, the other fields keeping their own
defaults. -/
theorem c10_lenient_coercion :
    (∀ (s : String) (v : PyFloat),
        pyFloatOfString s = some v → pyFloat (Json.str s) = CoerceResult.ok v) ∧
    pyFloat (Json.str "150") = CoerceResult.ok (PyFloat.finite 150) ∧
    (∀ b : Bool,
        pyFloat (Json.bool b) = CoerceResult.ok (PyFloat.finite (if b then 1 else 0))) ∧
    computeFeatures [("Glucose", Json.str "150"), ("BMI", Json.bool true)]
      = Except.ok [PyFloat.finite 0, PyFloat.finite 150, PyFloat.finite 0,
          PyFloat.finite 0, PyFloat.finite 1, PyFloat.finite 30] := by
  refine ⟨?_, by decide, fun _ => rfl, rfl⟩
  intro s v h
  simp [pyFloat, h]

theorem c10_witness :
    pyFloat (Json.str "32.5") = CoerceResult.ok (PyFloat.finite (mkRat 65 2)) :=
  c10_lenient_coercion.1 "32.5" (PyFloat.finite (mkRat 65 2)) (by decide)

end DiabetesGuard
